import Mathlib

set_option maxHeartbeats 1000000

/-!
Shallow embedding of `microtap.py`, a TAP version 14 producer.

The embedding models the report-generation engine: test points are
represented by the outcome their invocation produces (the raised signal,
if any), output is the list of strings handed to the line writer (the
writer itself appends the newline and the fixed indentation the stream
variant adds), and a raised `BailOut` is an `Except.error` value carrying
the exception's `args`.  Python strings are Lean `String`s; `str.strip`,
`str.rstrip`, `str.splitlines` and single-character `str.replace` are
embedded below as character-list operations.
-/

instance {ε α : Type} [DecidableEq ε] [DecidableEq α] : DecidableEq (Except ε α) := fun x y =>
  match x, y with
  | Except.ok a, Except.ok b =>
    if h : a = b then Decidable.isTrue (congrArg Except.ok h)
    else Decidable.isFalse (fun he => h (Except.ok.inj he))
  | Except.error a, Except.error b =>
    if h : a = b then Decidable.isTrue (congrArg Except.error h)
    else Decidable.isFalse (fun he => h (Except.error.inj he))
  | Except.ok _, Except.error _ => Decidable.isFalse (fun he => Except.noConfusion he)
  | Except.error _, Except.ok _ => Decidable.isFalse (fun he => Except.noConfusion he)

/-- Python truthiness of an `Optional[str]` value: `None` and the empty
string are falsy, every other string is truthy. -/
def pyTruthy : Option String → Bool
  | none => false
  | some s => !s.isEmpty

/-- Python `f"{x}"` interpolation of an `Optional[str]` value: `None`
renders as the literal text `None`. -/
def pyStr : Option String → String
  | none => "None"
  | some s => s

/-- Characters of `str.strip()`: leading and trailing whitespace removed. -/
def stripChars (l : List Char) : List Char :=
  ((l.dropWhile Char.isWhitespace).reverse.dropWhile Char.isWhitespace).reverse

/-- Embedding of Python `str.strip()` (no arguments). -/
def pyStrip (s : String) : String := String.mk (stripChars s.data)

/-- Embedding of Python `str.rstrip()` (no arguments). -/
def rstrip (s : String) : String :=
  String.mk (s.data.reverse.dropWhile Char.isWhitespace).reverse

/-- Embedding of Python `str.replace(old, new)` for a single-character
`old` pattern (the only form `microtap.py` uses): every occurrence of the
pattern character is replaced by the given replacement characters. -/
def pyReplaceChar (pat : Char) (rep : List Char) (s : String) : String :=
  String.mk (s.data.flatMap (fun c => if c = pat then rep else [c]))

/-- Embedding of Python `' '.join(parts)`, used on exception `args`. -/
def joinSpace (parts : List String) : String := String.intercalate " " parts

/-- Auxiliary splitter for `splitlines`: cut the character list at every
newline, the accumulator holding the current line reversed. -/
def splitlinesChars : List Char → List Char → List (List Char)
  | [], acc => [acc.reverse]
  | c :: rest, acc =>
    if c = '\n' then acc.reverse :: splitlinesChars rest [] else splitlinesChars rest (c :: acc)

/-- Embedding of Python `str.splitlines()` for strings whose only line
terminator is `\n` (the only terminator the module's formatted output
uses): the empty string yields no lines, and a trailing newline does not
produce a final empty line. -/
def splitlines (s : String) : List String :=
  if s.data.isEmpty then []
  else
    let parts := splitlinesChars s.data []
    (if parts.getLast? = some [] then parts.dropLast else parts).map String.mk

/-- Embedding of `_escape_string` (microtap.py lines 175-198): `None`,
empty and whitespace-only inputs give `None`; otherwise every backslash
becomes a double backslash, every hash gains a leading backslash, and the
result is stripped of surrounding whitespace. -/
def _escape_string (string : Option String) : Option String :=
  match string with
  | none => none
  | some s =>
    if (pyStrip s).isEmpty then none
    else some (pyStrip (pyReplaceChar '#' ['\\', '#'] (pyReplaceChar '\\' ['\\', '\\'] s)))

/-- Embedding of `_trim_empty_to_none` (microtap.py lines 201-220). -/
def _trim_empty_to_none (string : Option String) : Option String :=
  match string with
  | none => none
  | some s => if (pyStrip s).isEmpty then none else some (pyStrip s)

/-- Outcome of invoking one registered test point: it returns normally, or
raises one of the four signalling exceptions (carrying the exception's
`args` tuple as a list of strings), or raises any other exception.  For
the latter, `args` is the exception's `args` and `trace` is the list of
lines `sys.print_exception` renders for it (environment-supplied text,
taken as data). -/
inductive TestOutcome where
  | normal : TestOutcome
  | skip (args : List String) : TestOutcome
  | todo (args : List String) : TestOutcome
  | fail (args : List String) : TestOutcome
  | bailOut (args : List String) : TestOutcome
  | error (args : List String) (trace : List String) : TestOutcome
deriving DecidableEq

/-- Whether the outcome is a raised `BailOut`. -/
def TestOutcome.isBail : TestOutcome → Bool
  | .bailOut _ => true
  | _ => false

/-- Embedding of the `Plan` container (microtap.py lines 244-353): file
name, optional description, registered test points in insertion order
(each a test point outcome paired with its optional description), and the
skipped flag.  `Plan.__init__` and `add_test_point` pass descriptions
through `_trim_empty_to_none`; `mkPlan` and `addTestPoint` below do the
same. -/
structure Plan where
  file_name : String
  description : Option String
  test_points : List (TestOutcome × Option String)
  skipped : Bool
deriving DecidableEq

/-- Embedding of `Plan.__init__`: the description is trimmed-or-dropped,
the test point list starts empty. -/
def mkPlan (file_name : String) (description : Option String) (skipped : Bool) : Plan :=
  ⟨file_name, _trim_empty_to_none description, [], skipped⟩

/-- Embedding of `Plan.add_test_point`: appends the point with its
trimmed-or-dropped description. -/
def addTestPoint (p : Plan) (t : TestOutcome) (description : Option String) : Plan :=
  { p with test_points := p.test_points ++ [(t, _trim_empty_to_none description)] }

/-- Embedding of `_format_exception`'s traceback section (microtap.py
lines 524-527): each trace line is written indented by two spaces and
newline-terminated. -/
def _format_exception_trace : List String → String
  | [] => ""
  | l :: rest => "  " ++ l ++ "\n" ++ _format_exception_trace rest

/-- Embedding of `_format_exception` (microtap.py lines 500-529): the
YAML diagnostics block text, `---`/`...` delimited, with the joined
exception `args` on the `exception:` line and the captured trace under
`traceback: |-`. -/
def _format_exception (args : List String) (trace : List String) : String :=
  "---\n" ++ ("exception: " ++ joinSpace args ++ "\n") ++ "traceback: |-\n"
    ++ _format_exception_trace trace ++ "...\n"

/-- Embedding of `_write_test_result` (microtap.py lines 532-575),
returning the single line handed to the stream writer: `ok`/`not ok`, the
index, the optional ` - description`, the optional ` # DIRECTIVE` and the
escaped directive description when that escapes to a truthy string. -/
def _write_test_result (description : Option String) (index : Nat) (success : Bool)
    (directive : Option String) (directive_description : Option String) : String :=
  let s0 := if success then "ok" else "not ok"
  let s1 := s0 ++ " " ++ toString index
  let s2 := if pyTruthy description then s1 ++ " - " ++ pyStr description else s1
  if pyTruthy directive then
    let s3 := s2 ++ " # " ++ pyStr directive
    if pyTruthy (_escape_string directive_description) then
      s3 ++ " " ++ pyStr (_escape_string directive_description)
    else s3
  else s2

/-- Embedding of `_execute_test_plan`'s test point loop (microtap.py
lines 602-638): runs the points from the given 1-based index with the
current aggregate `success` flag, returning the lines written and either
the final `success` value or the `args` of a re-raised `BailOut`.
A `Skip` writes an `ok` line with a `SKIP` directive; a `ToDo` writes a
`not ok` line with a `TODO` directive (the aggregate flag is left alone);
a `Fail` writes a bare `not ok` line and clears the flag; a `BailOut` is
re-raised unchanged; any other exception writes a bare `not ok` line
followed by the diagnostics block split into lines, each right-stripped
and indented by two spaces, and clears the flag. -/
def run_points (index : Nat) (success : Bool) :
    List (TestOutcome × Option String) → List String × Except (List String) Bool
  | [] => ([], Except.ok success)
  | (t, d) :: rest =>
    match t with
    | .normal =>
      let line := _write_test_result d index true none none
      let r := run_points (index + 1) success rest
      (line :: r.1, r.2)
    | .skip args =>
      let line := _write_test_result d index true (some "SKIP") (some (joinSpace args))
      let r := run_points (index + 1) success rest
      (line :: r.1, r.2)
    | .todo args =>
      let line := _write_test_result d index false (some "TODO") (some (joinSpace args))
      let r := run_points (index + 1) success rest
      (line :: r.1, r.2)
    | .fail _ =>
      let line := _write_test_result d index false none none
      let r := run_points (index + 1) false rest
      (line :: r.1, r.2)
    | .bailOut args => ([], Except.error args)
    | .error args trace =>
      let line := _write_test_result d index false none none
      let diag := (splitlines (_format_exception args trace)).map (fun l => "  " ++ rstrip l)
      let r := run_points (index + 1) false rest
      (line :: diag ++ r.1, r.2)

/-- Embedding of `_execute_test_plan` (microtap.py lines 578-638): a plan
with no test points or with the skipped flag set writes the single line
`1..0` (with a ` # SKIP` directive carrying the escaped description when
the description is truthy) and returns success; otherwise the plan line
`1..N` is written and the points run from index 1 with `success`
initially true. -/
def _execute_test_plan (plan : Plan) : List String × Except (List String) Bool :=
  if plan.test_points.isEmpty || plan.skipped then
    let header := "1..0" ++
      (if pyTruthy plan.description then " # SKIP " ++ pyStr (_escape_string plan.description)
       else "")
    ([header], Except.ok true)
  else
    let r := run_points 1 true plan.test_points
    (("1.." ++ toString plan.test_points.length) :: r.1, r.2)

/-- Embedding of `_format_bailout_exception` (microtap.py lines 670-689):
`Bail out! ` followed by the interpolated escape of the joined exception
`args`, stripped, with a trailing newline. -/
def _format_bailout_exception (args : List String) : String :=
  pyStrip ("Bail out! " ++ pyStr (_escape_string (some (joinSpace args)))) ++ "\n"

/-- The argument of `execute_test_plans`: either a bare `Plan` instance or
a sequence (list/tuple) of plans. -/
inductive PlansArg where
  | single : Plan → PlansArg
  | seq : List Plan → PlansArg

/-- Four-space indentation applied by the sub-plan stream writer built by
`_build_stream_writer(output_stream, 4)` (microtap.py lines 641-667). -/
def indent4 (lines : List String) : List String := lines.map (fun l => "    " ++ l)

/-- Output and bookkeeping of the multi-mode plan loop. -/
structure LoopResult where
  lines : List String
  results : List Bool
  bailed : Bool
deriving DecidableEq

/-- Embedding of the multi-mode loop of `execute_test_plans` (microtap.py
lines 742-753): each plan gets a `# Tests for <file>` comment line and
runs with four-space indentation, its success recorded; a `BailOut`
writes the bail-out line unindented and ends the loop with no result
recorded for that plan. -/
def run_plans_loop : List Plan → LoopResult
  | [] => ⟨[], [], false⟩
  | p :: rest =>
    let cmt := "# Tests for " ++ p.file_name
    match _execute_test_plan p with
    | (plines, Except.ok b) =>
      let r := run_plans_loop rest
      ⟨cmt :: (indent4 plines ++ r.lines), b :: r.results, r.bailed⟩
    | (plines, Except.error args) =>
      ⟨cmt :: (indent4 plines ++ [_format_bailout_exception args]), [], true⟩

/-- Embedding of the roll-up loop of `execute_test_plans` (microtap.py
lines 755-762): one line per plan/result pair from the given 1-based
index, `ok`/`not ok` per recorded success, with the plan's description
appended when truthy. -/
def roll_up_lines : Nat → List (Plan × Bool) → List String
  | _, [] => []
  | i, (p, b) :: rest =>
    ((if b then "ok" else "not ok") ++ " " ++ toString i ++
      (if pyTruthy p.description then " - " ++ pyStr p.description else ""))
      :: roll_up_lines (i + 1) rest

/-- Single mode of `execute_test_plans` (microtap.py lines 733-738): run
the one plan, converting a raised `BailOut` into the terminal bail-out
line; nothing further. -/
def single_mode (p : Plan) : List String :=
  match _execute_test_plan p with
  | (plines, Except.ok _) => plines
  | (plines, Except.error args) => plines ++ [_format_bailout_exception args]

/-- Multi mode of `execute_test_plans` (microtap.py lines 740-762): the
root plan line `1..M` when the flag is set, the plan loop, and — only if
no plan bailed out — the roll-up lines when the flag is set. -/
def multi_mode (ps : List Plan) (root_plan : Bool) : List String :=
  (if root_plan then ["1.." ++ toString ps.length] else []) ++
  (let r := run_plans_loop ps
   r.lines ++ (if r.bailed then [] else if root_plan then roll_up_lines 1 (ps.zip r.results) else []))

/-- Embedding of `execute_test_plans` (microtap.py lines 692-762),
returning the full list of lines handed to the writers.  Mode selection
follows the source: a bare `Plan`, or a sequence of length one, selects
single mode; any other sequence selects multi mode.  Every run starts
with the `TAP version 14` header. -/
def execute_test_plans (plans : PlansArg) (root_plan : Bool) : List String :=
  "TAP version 14" ::
  match plans with
  | .single p => single_mode p
  | .seq [] => multi_mode [] root_plan
  | .seq [p] => single_mode p
  | .seq (p :: q :: rest) => multi_mode (p :: q :: rest) root_plan

/-- The simultaneous character substitution the spec's escaping rule
describes: every backslash becomes a double backslash and every hash
gains a leading backslash, in one pass.  Written from the spec's words,
to be compared with the source's two sequential `str.replace` calls. -/
def escape_subst_spec (s : String) : String :=
  String.mk (s.data.flatMap (fun c =>
    if c = '\\' then ['\\', '\\'] else if c = '#' then ['\\', '#'] else [c]))

/-- The recorded success of a finished plan run (`Except.ok` values only
arise for plans that did not bail out). -/
def okVal : Except (List String) Bool → Bool
  | Except.ok b => b
  | Except.error _ => true

/-- The comment line and indented run the multi-mode loop writes for one
plan that does not bail out. -/
def plan_block (p : Plan) : List String :=
  ("# Tests for " ++ p.file_name) :: indent4 (_execute_test_plan p).1

/-- One roll-up line: `ok`/`not ok`, the 1-based index, and the plan's
description when truthy. -/
def roll_line (n : Nat) (pb : Plan × Bool) : String :=
  (if pb.2 then "ok" else "not ok") ++ " " ++ toString n ++
    (if pyTruthy pb.1.description then " - " ++ pyStr pb.1.description else "")

/-- The lines the plan runner writes for a single test point at the given
1-based index: the result line, followed — for an unhandled error — by
the diagnostics block lines, right-stripped and indented two spaces.  A
`BailOut` writes nothing. -/
def point_block (i : Nat) (td : TestOutcome × Option String) : List String :=
  match td.1 with
  | .normal => [_write_test_result td.2 i true none none]
  | .skip args => [_write_test_result td.2 i true (some "SKIP") (some (joinSpace args))]
  | .todo args => [_write_test_result td.2 i false (some "TODO") (some (joinSpace args))]
  | .fail _ => [_write_test_result td.2 i false none none]
  | .bailOut _ => []
  | .error args trace =>
    _write_test_result td.2 i false none none ::
      (splitlines (_format_exception args trace)).map (fun l => "  " ++ rstrip l)

/-- The success flag of the outcome's result line per the outcome
taxonomy: passing and skipped points are `ok`, everything else `not ok`. -/
def resultFlag : TestOutcome → Bool
  | .normal => true
  | .skip _ => true
  | _ => false

/-- The directive attached to the outcome's result line. -/
def directiveOf : TestOutcome → Option String
  | .skip _ => some "SKIP"
  | .todo _ => some "TODO"
  | _ => none

/-- The directive reason attached to the outcome's result line: the
joined exception `args` for `Skip` and `ToDo`. -/
def reasonOf : TestOutcome → Option String
  | .skip args => some (joinSpace args)
  | .todo args => some (joinSpace args)
  | _ => none

theorem strext {a b : String} (h : a.data = b.data) : a = b := by
  cases a
  cases b
  exact congrArg String.mk h

@[simp]
theorem mk_data (s : String) : String.mk s.data = s := rfl

theorem stripChars_eq_nil_iff (l : List Char) :
    stripChars l = [] ↔ ∀ c ∈ l, c.isWhitespace = true := by
  unfold stripChars
  rw [List.reverse_eq_nil_iff, List.dropWhile_eq_nil_iff]
  constructor
  · intro h c hc
    have hsplit := List.takeWhile_append_dropWhile (fun c => c.isWhitespace) l
    rw [← hsplit] at hc
    rcases List.mem_append.mp hc with h1 | h1
    · exact List.mem_takeWhile_imp h1
    · exact h c (List.mem_reverse.mpr h1)
  · intro h c hc
    exact h c ((List.dropWhile_sublist _).subset (List.mem_reverse.mp hc))

theorem pyStrip_isEmpty_iff (s : String) :
    (pyStrip s).isEmpty = true ↔ ∀ c ∈ s.data, c.isWhitespace = true := by
  rw [pyStrip, String.isEmpty_iff, ← stripChars_eq_nil_iff]
  constructor
  · intro h
    have := congrArg String.data h
    simpa using this
  · intro h
    rw [h]

theorem subst_comp (l : List Char) :
    ((l.flatMap (fun c => if c = '\\' then ['\\', '\\'] else [c])).flatMap
        (fun c => if c = '#' then ['\\', '#'] else [c])) =
      l.flatMap (fun c =>
        if c = '\\' then ['\\', '\\'] else if c = '#' then ['\\', '#'] else [c]) := by
  induction l with
  | nil => rfl
  | cons c rest ih =>
    simp only [List.flatMap_cons, List.flatMap_append, ih]
    by_cases h1 : c = '\\'
    · subst h1
      rfl
    · by_cases h2 : c = '#'
      · subst h2
        simp
      · simp [h1, h2]

theorem replace_replace_eq_subst (s : String) :
    pyReplaceChar '#' ['\\', '#'] (pyReplaceChar '\\' ['\\', '\\'] s) = escape_subst_spec s := by
  apply strext
  simpa [pyReplaceChar, escape_subst_spec] using subst_comp s.data

theorem escape_string_eq_subst (s : String) (h : (pyStrip s).isEmpty = false) :
    _escape_string (some s) = some (pyStrip (escape_subst_spec s)) := by
  rw [_escape_string, if_neg (by simp [h]), replace_replace_eq_subst]

theorem escape_string_none_of_blank (s : String) (h : (pyStrip s).isEmpty = true) :
    _escape_string (some s) = none := by
  rw [_escape_string, if_pos h]

theorem pyStrip_subst_ne_empty (s : String) (h : (pyStrip s).isEmpty = false) :
    (pyStrip (escape_subst_spec s)).isEmpty = false := by
  rw [Bool.eq_false_iff] at h ⊢
  intro hc
  apply h
  rw [pyStrip_isEmpty_iff] at hc ⊢
  intro c hcs
  by_contra hw
  rw [Bool.not_eq_true] at hw
  have hmem : ∃ d, d ∈ (escape_subst_spec s).data ∧ d.isWhitespace = false := by
    by_cases h1 : c = '\\'
    · refine ⟨'\\', ?_, by decide⟩
      show ('\\' : Char) ∈ s.data.flatMap _
      rw [List.mem_flatMap]
      exact ⟨c, hcs, by simp [h1]⟩
    · by_cases h2 : c = '#'
      · refine ⟨'#', ?_, by decide⟩
        show ('#' : Char) ∈ s.data.flatMap _
        rw [List.mem_flatMap]
        exact ⟨c, hcs, by simp [h1, h2]⟩
      · refine ⟨c, ?_, hw⟩
        show c ∈ s.data.flatMap _
        rw [List.mem_flatMap]
        exact ⟨c, hcs, by simp [h1, h2]⟩
  obtain ⟨d, hd, hdw⟩ := hmem
  rw [hc d hd] at hdw
  exact absurd hdw (by decide)

theorem escape_string_some_ne_empty (s r : String) (h : _escape_string (some s) = some r) :
    r.isEmpty = false := by
  rw [_escape_string] at h
  by_cases hb : (pyStrip s).isEmpty = true
  · rw [if_pos hb] at h
    exact absurd h (by simp)
  · rw [Bool.not_eq_true] at hb
    rw [if_neg (by simp [hb]), replace_replace_eq_subst, Option.some_inj] at h
    rw [← h]
    exact pyStrip_subst_ne_empty s hb

theorem splitlinesChars_chunk (l : List Char) (h : ('\n' : Char) ∉ l) (rest : List Char) :
    ∀ acc, splitlinesChars (l ++ '\n' :: rest) acc = (acc.reverse ++ l) :: splitlinesChars rest [] := by
  induction l with
  | nil =>
    intro acc
    simp [splitlinesChars]
  | cons c cs ih =>
    intro acc
    have hc : c ≠ '\n' := by
      rintro rfl
      exact h (by simp)
    have hcs : ('\n' : Char) ∉ cs := fun hx => h (List.mem_cons_of_mem _ hx)
    show splitlinesChars (c :: (cs ++ '\n' :: rest)) acc = _
    rw [splitlinesChars, if_neg hc]
    rw [ih hcs]
    simp

theorem format_trace_split (trace : List String) (ht : ∀ t ∈ trace, ('\n' : Char) ∉ t.data)
    (rest : List Char) :
    splitlinesChars ((_format_exception_trace trace).data ++ rest) [] =
      trace.map (fun t => ("  " ++ t).data) ++ splitlinesChars rest [] := by
  induction trace with
  | nil => simp [_format_exception_trace]
  | cons t ts ih =>
    have ht1 : ('\n' : Char) ∉ ("  " ++ t).data := by
      rw [String.data_append]
      intro hx
      rcases List.mem_append.mp hx with h1 | h1
      · revert h1
        decide
      · exact ht t (by simp) h1
    have hts : ∀ u ∈ ts, ('\n' : Char) ∉ u.data := fun u hu => ht u (by simp [hu])
    have hdata : (_format_exception_trace (t :: ts)).data ++ rest =
        ("  " ++ t).data ++ '\n' :: ((_format_exception_trace ts).data ++ rest) := by
      simp only [_format_exception_trace, String.data_append, List.append_assoc,
        List.cons_append, List.nil_append]
    rw [hdata, splitlinesChars_chunk _ ht1, ih hts]
    simp

theorem last_drop_helper (M : List (List Char)) (A B C D : List Char) :
    (if (A :: B :: C :: (M ++ [D, ([] : List Char)])).getLast? = some [] then
        (A :: B :: C :: (M ++ [D, ([] : List Char)])).dropLast
      else A :: B :: C :: (M ++ [D, ([] : List Char)])) =
      A :: B :: C :: (M ++ [D]) := by
  have h1 : A :: B :: C :: (M ++ [D, ([] : List Char)])
      = (A :: B :: C :: (M ++ [D])) ++ [[]] := by
    simp
  have h2 : (A :: B :: C :: (M ++ [D, ([] : List Char)])).getLast? = some [] := by
    rw [h1]
    exact List.getLast?_concat _
  rw [if_pos h2, h1]
  exact List.dropLast_concat

theorem splitlines_format_exception (args trace : List String)
    (hm : ('\n' : Char) ∉ (joinSpace args).data)
    (ht : ∀ t ∈ trace, ('\n' : Char) ∉ t.data) :
    splitlines (_format_exception args trace) =
      ["---", "exception: " ++ joinSpace args, "traceback: |-"]
        ++ trace.map (fun t => "  " ++ t) ++ ["..."] := by
  have hdata : (_format_exception args trace).data =
      "---".data ++ '\n' :: (("exception: " ++ joinSpace args).data ++ '\n' ::
        ("traceback: |-".data ++ '\n' :: ((_format_exception_trace trace).data ++
          ("...".data ++ '\n' :: [])))) := by
    simp only [_format_exception, String.data_append, List.append_assoc,
      List.cons_append, List.nil_append]
  have hexc : ('\n' : Char) ∉ ("exception: " ++ joinSpace args).data := by
    rw [String.data_append]
    intro hx
    rcases List.mem_append.mp hx with h1 | h1
    · revert h1
      decide
    · exact hm h1
  have hne : (_format_exception args trace).data.isEmpty = false := by
    rw [hdata]
    rfl
  unfold splitlines
  rw [if_neg (by rw [hne]; exact Bool.false_ne_true)]
  rw [hdata]
  rw [splitlinesChars_chunk ("---".data) (by decide)]
  rw [splitlinesChars_chunk (("exception: " ++ joinSpace args).data) hexc]
  rw [splitlinesChars_chunk ("traceback: |-".data) (by decide)]
  rw [format_trace_split trace ht]
  rw [splitlinesChars_chunk ("...".data) (by decide)]
  simp only [splitlinesChars, List.reverse_nil, List.nil_append]
  rw [last_drop_helper]
  simp only [List.map_cons, List.map_append, List.map_map, mk_data]
  simp [Function.comp]
  intro a _
  apply strext
  rw [String.data_append]
  rfl

theorem run_points_snd_irrel (l : List (TestOutcome × Option String)) :
    ∀ (i j : Nat) (s : Bool), (run_points i s l).2 = (run_points j s l).2 := by
  induction l with
  | nil => intro i j s; rfl
  | cons td rest ih =>
    intro i j s
    obtain ⟨t, d⟩ := td
    cases t <;> simp [run_points] <;> apply ih

theorem run_points_false_ne_ok_true (l : List (TestOutcome × Option String)) :
    ∀ i : Nat, (run_points i false l).2 ≠ Except.ok true := by
  induction l with
  | nil =>
    intro i h
    exact absurd (Except.ok.inj h) (by decide)
  | cons td rest ih =>
    intro i h
    obtain ⟨t, d⟩ := td
    cases t <;> simp [run_points] at h <;> try exact ih _ h

theorem run_points_append (l₁ l₂ : List (TestOutcome × Option String)) :
    ∀ (i : Nat) (s : Bool), (∀ x ∈ l₁, x.1.isBail = false) →
      run_points i s (l₁ ++ l₂) =
        ((run_points i s l₁).1 ++
            (run_points (i + l₁.length) (okVal (run_points i s l₁).2) l₂).1,
          (run_points (i + l₁.length) (okVal (run_points i s l₁).2) l₂).2) := by
  induction l₁ with
  | nil =>
    intro i s _
    simp [run_points, okVal]
  | cons td rest ih =>
    intro i s hnb
    obtain ⟨t, d⟩ := td
    have hrest : ∀ x ∈ rest, x.1.isBail = false := fun x hx => hnb x (List.mem_cons_of_mem _ hx)
    cases t with
    | bailOut args =>
      exact absurd (hnb (TestOutcome.bailOut args, d) (List.mem_cons_self _ _))
        (by simp [TestOutcome.isBail])
    | normal =>
      simp only [List.cons_append, run_points, List.append_eq]
      rw [ih (i + 1) s hrest]
      simp [List.append_assoc, Nat.add_comm, Nat.add_assoc, Nat.add_left_comm]
    | skip args =>
      simp only [List.cons_append, run_points, List.append_eq]
      rw [ih (i + 1) s hrest]
      simp [List.append_assoc, Nat.add_comm, Nat.add_assoc, Nat.add_left_comm]
    | todo args =>
      simp only [List.cons_append, run_points, List.append_eq]
      rw [ih (i + 1) s hrest]
      simp [List.append_assoc, Nat.add_comm, Nat.add_assoc, Nat.add_left_comm]
    | fail args =>
      simp only [List.cons_append, run_points, List.append_eq]
      rw [ih (i + 1) false hrest]
      simp [List.append_assoc, Nat.add_comm, Nat.add_assoc, Nat.add_left_comm]
    | error args trace =>
      simp only [List.cons_append, run_points, List.append_eq]
      rw [ih (i + 1) false hrest]
      simp [List.append_assoc, Nat.add_comm, Nat.add_assoc, Nat.add_left_comm]

theorem run_plans_loop_ok_cons (p : Plan) (rest : List Plan) (b : Bool)
    (hb : (_execute_test_plan p).2 = Except.ok b) :
    run_plans_loop (p :: rest) =
      ⟨plan_block p ++ (run_plans_loop rest).lines, b :: (run_plans_loop rest).results,
        (run_plans_loop rest).bailed⟩ := by
  have hp : _execute_test_plan p = ((_execute_test_plan p).1, Except.ok b) := by
    rw [← hb]
  rw [run_plans_loop, hp]
  rfl

theorem run_plans_loop_bail_cons (p : Plan) (rest : List Plan) (args : List String)
    (hb : (_execute_test_plan p).2 = Except.error args) :
    run_plans_loop (p :: rest) =
      ⟨plan_block p ++ [_format_bailout_exception args], [], true⟩ := by
  have hp : _execute_test_plan p = ((_execute_test_plan p).1, Except.error args) := by
    rw [← hb]
  rw [run_plans_loop, hp]
  rfl

theorem run_plans_loop_append_ok (qs : List Plan)
    (h : ∀ q ∈ qs, ∃ b, (_execute_test_plan q).2 = Except.ok b) (rest : List Plan) :
    run_plans_loop (qs ++ rest) =
      ⟨qs.flatMap plan_block ++ (run_plans_loop rest).lines,
        qs.map (fun q => okVal (_execute_test_plan q).2) ++ (run_plans_loop rest).results,
        (run_plans_loop rest).bailed⟩ := by
  induction qs with
  | nil => simp
  | cons q qs ih =>
    obtain ⟨b, hb⟩ := h q (List.mem_cons_self _ _)
    have hqs : ∀ x ∈ qs, ∃ c, (_execute_test_plan x).2 = Except.ok c :=
      fun x hx => h x (List.mem_cons_of_mem _ hx)
    rw [List.cons_append, run_plans_loop_ok_cons q _ b hb, ih hqs]
    simp [okVal, hb, List.append_assoc]

theorem roll_up_lines_eq_mapIdx (pairs : List (Plan × Bool)) :
    ∀ i : Nat, roll_up_lines i pairs = pairs.mapIdx (fun k pb => roll_line (i + k) pb) := by
  induction pairs with
  | nil => intro i; rfl
  | cons pb rest ih =>
    intro i
    obtain ⟨p, b⟩ := pb
    rw [roll_up_lines, List.mapIdx_cons, ih (i + 1)]
    have hf : (fun k (pb : Plan × Bool) => roll_line (i + (k + 1)) pb)
        = (fun k (pb : Plan × Bool) => roll_line (i + 1 + k) pb) := by
      funext k pb
      have hik : i + (k + 1) = i + 1 + k := by omega
      rw [hik]
    rw [← hf]
    simp [roll_line]

theorem exec_seq_multi (ps : List Plan) (rp : Bool) (h : ps.length ≠ 1) :
    execute_test_plans (PlansArg.seq ps) rp = "TAP version 14" :: multi_mode ps rp := by
  match ps with
  | [] => rfl
  | [p] => exact absurd rfl h
  | p :: q :: rest => rfl

theorem multi_mode_ok (ps : List Plan)
    (h : ∀ p ∈ ps, ∃ b, (_execute_test_plan p).2 = Except.ok b) :
    multi_mode ps true =
      ("1.." ++ toString ps.length) ::
        (ps.flatMap plan_block ++
          roll_up_lines 1 (ps.zip (ps.map (fun p => okVal (_execute_test_plan p).2)))) := by
  have hl := run_plans_loop_append_ok ps h []
  rw [List.append_nil] at hl
  simp only [multi_mode, hl]
  simp [run_plans_loop]

theorem multi_mode_bail (qs rs : List Plan) (p : Plan) (args : List String)
    (hq : ∀ q ∈ qs, ∃ b, (_execute_test_plan q).2 = Except.ok b)
    (hp : (_execute_test_plan p).2 = Except.error args) (rp : Bool) :
    multi_mode (qs ++ p :: rs) rp =
      (if rp then ["1.." ++ toString (qs ++ p :: rs).length] else []) ++
        (qs.flatMap plan_block ++ (plan_block p ++ [_format_bailout_exception args])) := by
  have h1 := run_plans_loop_append_ok qs hq (p :: rs)
  have h2 := run_plans_loop_bail_cons p rs args hp
  rw [h2] at h1
  simp only [multi_mode, h1]
  simp [List.append_assoc]

theorem run_points_eq_blocks (l : List (TestOutcome × Option String)) :
    ∀ (i : Nat) (s : Bool), (∀ x ∈ l, x.1.isBail = false) →
      (run_points i s l).1 = ((l.enumFrom i).map (fun q => point_block q.1 q.2)).flatten := by
  induction l with
  | nil =>
    intro i s _
    rfl
  | cons td rest ih =>
    intro i s h
    have hrest : ∀ x ∈ rest, x.1.isBail = false := fun x hx => h x (List.mem_cons_of_mem _ hx)
    obtain ⟨t, d⟩ := td
    cases t with
    | bailOut args =>
      exact absurd (h (TestOutcome.bailOut args, d) (List.mem_cons_self _ _))
        (by simp [TestOutcome.isBail])
    | normal =>
      simp only [run_points, List.enumFrom, List.map_cons, List.flatten_cons]
      rw [ih (i + 1) s hrest]
      simp [point_block]
    | skip args =>
      simp only [run_points, List.enumFrom, List.map_cons, List.flatten_cons]
      rw [ih (i + 1) s hrest]
      simp [point_block]
    | todo args =>
      simp only [run_points, List.enumFrom, List.map_cons, List.flatten_cons]
      rw [ih (i + 1) s hrest]
      simp [point_block]
    | fail args =>
      simp only [run_points, List.enumFrom, List.map_cons, List.flatten_cons]
      rw [ih (i + 1) false hrest]
      simp [point_block]
    | error args trace =>
      simp only [run_points, List.enumFrom, List.map_cons, List.flatten_cons]
      rw [ih (i + 1) false hrest]
      simp [point_block, List.append_assoc]

/-- Sanity check: a plan with no registered test points writes only `1..0`. -/
theorem sanity_empty_plan :
    _execute_test_plan (mkPlan "test_a.py" none false) = (["1..0"], Except.ok true) := by
  decide

/-- Sanity check, spec scenario: single plan, description `math`, point 1
passes and point 2 raises `Fail("bad sum")`. -/
theorem sanity_math_plan :
    _execute_test_plan
      ⟨"test_m.py", some "math",
        [(TestOutcome.normal, none), (TestOutcome.fail ["bad sum"], none)], false⟩ =
      (["1..2", "ok 1", "not ok 2"], Except.ok false) := by
  decide

/-- Sanity check: an unhandled error produces the indented diagnostics
block after the `not ok` line. -/
theorem sanity_error_plan :
    _execute_test_plan
      ⟨"test_e.py", none, [(TestOutcome.error ["boom"] ["line one", "line two"], none)], false⟩ =
      (["1..1", "not ok 1", "  ---", "  exception: boom", "  traceback: |-",
        "    line one", "    line two", "  ..."], Except.ok false) := by
  decide

/-- Sanity check: a non-blank bail-out reason passes through. -/
theorem sanity_bailout_reason :
    _format_bailout_exception ["overheat"] = "Bail out! overheat\n" := by
  decide

/-- C10: for the empty sequence of plans, `execute_test_plans` with the
root-plan flag set runs in multi mode and writes exactly two lines —
`TAP version 14` followed by `1..0` — with no comment lines, no
plan-runner output, and no roll-up lines. -/
theorem microtap_C10 :
    execute_test_plans (PlansArg.seq []) true = ["TAP version 14", "1..0"] := by
  rfl

/-- C9: for every `BailOut` whose joined message is empty or
whitespace-only (including a `BailOut` raised with no arguments),
`_format_bailout_exception` produces the literal text `Bail out! None`
(with the trailing newline the source appends) rather than a bare
`Bail out!` line, because the `None` returned by the escaping function is
interpolated into the formatted string. -/
theorem microtap_C9 (args : List String)
    (h : (pyStrip (joinSpace args)).isEmpty = true) :
    _format_bailout_exception args = "Bail out! None\n" := by
  rw [_format_bailout_exception, escape_string_none_of_blank _ h]
  rfl

theorem microtap_C9_witness :
    _format_bailout_exception [] = "Bail out! None\n" :=
  microtap_C9 [] (by decide)

/-- C5: for every input to `execute_test_plans` that is exactly one plan —
given directly, or as a sequence of length one — the run operates in
single mode: `TAP version 14` is written, the one plan runs through the
plan runner with no indentation and no root plan line, and a `BailOut`
raised during the run is caught there and converted into the terminal
bail-out line, with nothing written after it. -/
theorem microtap_C5 (p : Plan) (rp : Bool) :
    execute_test_plans (PlansArg.seq [p]) rp = execute_test_plans (PlansArg.single p) rp
    ∧ execute_test_plans (PlansArg.single p) rp =
        "TAP version 14" ::
          ((_execute_test_plan p).1 ++
            (match (_execute_test_plan p).2 with
             | Except.ok _ => []
             | Except.error args => [_format_bailout_exception args])) := by
  refine ⟨rfl, ?_⟩
  show "TAP version 14" :: single_mode p = _
  rcases hp : _execute_test_plan p with ⟨lines, r⟩
  cases r with
  | ok b => simp [single_mode, hp]
  | error args => simp [single_mode, hp]

/-- C4: for every plan whose `skipped` flag is true or whose test-point
list is empty, `_execute_test_plan` writes exactly one line `1..0` (with
a ` # SKIP` directive carrying the escaped description appended iff the
plan has a description — under the constructor's invariant that the
stored description is trimmed-or-dropped), writes zero result lines,
returns success, and its output never depends on the registered test
points (no test point is invoked). -/
theorem microtap_C4 (plan : Plan) (tps tps' : List (TestOutcome × Option String))
    (h : plan.skipped = true ∨ plan.test_points = [])
    (hd : plan.description = _trim_empty_to_none plan.description) :
    _execute_test_plan plan =
      (["1..0" ++ (if pyTruthy plan.description then
          " # SKIP " ++ pyStr (_escape_string plan.description) else "")], Except.ok true)
    ∧ pyTruthy plan.description = plan.description.isSome
    ∧ (plan.description.isSome = true → (_escape_string plan.description).isSome = true)
    ∧ _execute_test_plan ⟨plan.file_name, plan.description, tps, true⟩ =
        _execute_test_plan ⟨plan.file_name, plan.description, tps', true⟩ := by
  have hcond : (plan.test_points.isEmpty || plan.skipped) = true := by
    rcases h with h | h <;> simp [h]
  have hdinfo : plan.description = none ∨
      ∃ q, plan.description = some q ∧ q = pyStrip q ∧ (pyStrip q).isEmpty = false := by
    cases hdesc : plan.description with
    | none => exact Or.inl rfl
    | some q =>
      rw [hdesc, _trim_empty_to_none] at hd
      by_cases hq : (pyStrip q).isEmpty = true
      · rw [if_pos hq] at hd
        exact absurd hd (by simp)
      · rw [Bool.not_eq_true] at hq
        rw [if_neg (by simp [hq])] at hd
        exact Or.inr ⟨q, rfl, Option.some_inj.mp hd, hq⟩
  refine ⟨?_, ?_, ?_, ?_⟩
  · rw [_execute_test_plan, if_pos hcond]
  · rcases hdinfo with hdesc | ⟨q, hdesc, hqs, hqe⟩
    · simp [hdesc, pyTruthy]
    · have : q.isEmpty = false := by rw [hqs]; exact hqe
      simp [hdesc, pyTruthy, this]
  · intro hsome
    rcases hdinfo with hdesc | ⟨q, hdesc, hqs, hqe⟩
    · rw [hdesc] at hsome
      exact absurd hsome (by simp)
    · rw [hdesc, _escape_string, if_neg (by simp [hqe])]
      rfl
  · rw [_execute_test_plan, _execute_test_plan]
    simp

theorem microtap_C4_witness :
    _execute_test_plan (mkPlan "test_d.py" (some "  maintenance  ") true) =
      (["1..0" ++ (if pyTruthy (mkPlan "test_d.py" (some "  maintenance  ") true).description then
          " # SKIP " ++ pyStr (_escape_string (mkPlan "test_d.py" (some "  maintenance  ") true).description)
        else "")], Except.ok true)
    ∧ pyTruthy (mkPlan "test_d.py" (some "  maintenance  ") true).description =
        (mkPlan "test_d.py" (some "  maintenance  ") true).description.isSome
    ∧ ((mkPlan "test_d.py" (some "  maintenance  ") true).description.isSome = true →
        (_escape_string (mkPlan "test_d.py" (some "  maintenance  ") true).description).isSome = true)
    ∧ _execute_test_plan ⟨(mkPlan "test_d.py" (some "  maintenance  ") true).file_name,
          (mkPlan "test_d.py" (some "  maintenance  ") true).description,
          [(TestOutcome.fail [], none)], true⟩ =
        _execute_test_plan ⟨(mkPlan "test_d.py" (some "  maintenance  ") true).file_name,
          (mkPlan "test_d.py" (some "  maintenance  ") true).description, [], true⟩ :=
  microtap_C4 (mkPlan "test_d.py" (some "  maintenance  ") true)
    [(TestOutcome.fail [], none)] [] (Or.inl rfl) (by decide)

/-- C7: the escaping function replaces every backslash with a double
backslash and every hash with a backslash-hash — the two sequential
single-character replaces of the source equal the spec's simultaneous
substitution — while `None`, empty and whitespace-only inputs are
treated as absent; and the escaping is applied only to directive-reason
text: a result line's description is interpolated verbatim, whereas the
directive reason goes through the escaping function. -/
theorem microtap_C7 (s t d r e dir : String) (i : Nat) (b : Bool) (dd : Option String)
    (hs : (pyStrip s).isEmpty = false)
    (ht : (pyStrip t).isEmpty = true)
    (hd : d.isEmpty = false)
    (he : _escape_string (some r) = some e)
    (hdir : dir.isEmpty = false) :
    _escape_string (some s) = some (pyStrip (escape_subst_spec s))
    ∧ _escape_string none = none
    ∧ _escape_string (some t) = none
    ∧ _write_test_result (some d) i b none none =
        (if b then "ok" else "not ok") ++ " " ++ toString i ++ " - " ++ d
    ∧ _write_test_result dd i b (some dir) (some r) =
        (if b then "ok" else "not ok") ++ " " ++ toString i ++
          (if pyTruthy dd then " - " ++ pyStr dd else "") ++ " # " ++ dir ++ " " ++ e := by
  refine ⟨escape_string_eq_subst s hs, rfl, escape_string_none_of_blank t ht, ?_, ?_⟩
  · have hdt : pyTruthy (some d) = true := by simp [pyTruthy, hd]
    simp only [_write_test_result, hdt, pyTruthy, if_true, if_false]
    simp [pyStr, hd]
  · have hdirt : pyTruthy (some dir) = true := by simp [pyTruthy, hdir]
    have he' : e.isEmpty = false := escape_string_some_ne_empty r e he
    have het : pyTruthy (some e) = true := by simp [pyTruthy, he']
    simp only [_write_test_result, hdirt, he, het, if_true]
    apply strext
    cases hp : pyTruthy dd <;>
      simp [hp, pyStr, het, String.data_append, List.append_assoc]

theorem microtap_C7_witness :
    _escape_string (some "a\\b # c") = some (pyStrip (escape_subst_spec "a\\b # c"))
    ∧ _escape_string none = none
    ∧ _escape_string (some "   ") = none
    ∧ _write_test_result (some "x # y\\") 7 false none none =
        (if false then "ok" else "not ok") ++ " " ++ toString 7 ++ " - " ++ "x # y\\"
    ∧ _write_test_result none 7 false (some "TODO") (some " keep # this \\ ") =
        (if false then "ok" else "not ok") ++ " " ++ toString 7 ++
          (if pyTruthy none then " - " ++ pyStr none else "") ++ " # " ++ "TODO" ++ " " ++
            "keep \\# this \\\\" :=
  microtap_C7 "a\\b # c" "   " "x # y\\" " keep # this \\ " "keep \\# this \\\\" "TODO" 7 false
    none (by decide) (by decide) (by decide) (by decide) (by decide)

/-- C6: for every multi-mode run of `execute_test_plans` with M plans and
the root-plan flag set, the line `1..M` is written before any plan runs;
plans are iterated in input order, each preceded by a comment line naming
its file and run with 4-space indentation; and if no `BailOut` occurs,
exactly one roll-up line per plan is written at the end, with 1-based
index, `ok`/`not ok` according to that plan's recorded success, and the
plan's description appended when present. -/
theorem microtap_C6 (ps : List Plan)
    (hlen : ps.length ≠ 1)
    (hok : ∀ p ∈ ps, ∃ b, (_execute_test_plan p).2 = Except.ok b) :
    execute_test_plans (PlansArg.seq ps) true =
      "TAP version 14" :: ("1.." ++ toString ps.length) ::
        (ps.flatMap plan_block ++
          (ps.zip (ps.map (fun p => okVal (_execute_test_plan p).2))).mapIdx
            (fun k pb => roll_line (k + 1) pb)) := by
  rw [exec_seq_multi ps true hlen, multi_mode_ok ps hok, roll_up_lines_eq_mapIdx _ 1]
  have hf : (fun k (pb : Plan × Bool) => roll_line (1 + k) pb)
      = fun k (pb : Plan × Bool) => roll_line (k + 1) pb := by
    funext k pb
    rw [Nat.add_comm]
  rw [hf]

theorem microtap_C6_witness :
    execute_test_plans (PlansArg.seq
        [⟨"test_x.py", some "alpha", [(TestOutcome.normal, none)], false⟩,
         ⟨"test_y.py", none, [(TestOutcome.fail ["bad"], none)], false⟩]) true =
      ["TAP version 14", "1..2",
       "# Tests for test_x.py", "    1..1", "    ok 1",
       "# Tests for test_y.py", "    1..1", "    not ok 1",
       "ok 1 - alpha", "not ok 2"] :=
  microtap_C6
    [⟨"test_x.py", some "alpha", [(TestOutcome.normal, none)], false⟩,
     ⟨"test_y.py", none, [(TestOutcome.fail ["bad"], none)], false⟩]
    (by decide) (by decide)

theorem exec_nonempty (plan : Plan) (hsk : plan.skipped = false)
    (hne : plan.test_points ≠ []) :
    _execute_test_plan plan =
      (("1.." ++ toString plan.test_points.length) :: (run_points 1 true plan.test_points).1,
        (run_points 1 true plan.test_points).2) := by
  have hc : (plan.test_points.isEmpty || plan.skipped) = false := by
    rw [hsk]
    cases h : plan.test_points
    · exact absurd h hne
    · rfl
  rw [_execute_test_plan, if_neg (by rw [hc]; exact Bool.false_ne_true)]

/-- C1 (amended): if the test point at 1-based index i raises `ToDo` (and
the plan reaches it, no earlier point having raised `BailOut`), the line
written for it is `not ok i` with a ` # TODO <reason>` directive, the
reason being the escape of the exception's joined message; but the plan's
returned aggregate `success` is NOT set to false by the `ToDo` — it
equals the aggregate the remaining test points alone produce. -/
theorem microtap_C1 (plan : Plan) (l₁ l₂ : List (TestOutcome × Option String))
    (args : List String) (d : Option String) (r : String)
    (hsk : plan.skipped = false)
    (hpts : plan.test_points = l₁ ++ (TestOutcome.todo args, d) :: l₂)
    (hnb : ∀ x ∈ l₁, x.1.isBail = false)
    (hr : _escape_string (some (joinSpace args)) = some r) :
    (∃ rest, (_execute_test_plan plan).1 =
        ("1.." ++ toString plan.test_points.length) ::
          ((run_points 1 true l₁).1 ++
            (("not ok " ++ toString (l₁.length + 1) ++
                (if pyTruthy d then " - " ++ pyStr d else "") ++ " # TODO " ++ r) :: rest)))
    ∧ (_execute_test_plan plan).2 =
        (_execute_test_plan ⟨plan.file_name, plan.description, l₁ ++ l₂, plan.skipped⟩).2 := by
  have hne : plan.test_points ≠ [] := by
    rw [hpts]
    cases l₁ <;> simp
  have hmain := exec_nonempty plan hsk hne
  have hfst : (_execute_test_plan plan).1 =
      ("1.." ++ toString plan.test_points.length) :: (run_points 1 true plan.test_points).1 := by
    rw [hmain]
  have hsnd : (_execute_test_plan plan).2 = (run_points 1 true plan.test_points).2 := by
    rw [hmain]
  have happ := run_points_append l₁ ((TestOutcome.todo args, d) :: l₂) 1 true hnb
  have htru : pyTruthy (_escape_string (some (joinSpace args))) = true := by
    rw [hr]
    simp [pyTruthy, escape_string_some_ne_empty _ _ hr]
  have hline : _write_test_result d (1 + l₁.length) false (some "TODO")
        (some (joinSpace args)) =
      "not ok " ++ toString (l₁.length + 1) ++
        (if pyTruthy d then " - " ++ pyStr d else "") ++ " # TODO " ++ r := by
    have hdirt : pyTruthy (some "TODO") = true := rfl
    have hrt : pyTruthy (some r) = true := by
      simp [pyTruthy, escape_string_some_ne_empty _ _ hr]
    simp only [_write_test_result, hdirt, hr, hrt, if_true]
    rw [Nat.add_comm 1 l₁.length]
    apply strext
    cases hp : pyTruthy d <;> simp [hp, pyStr, String.data_append, List.append_assoc]
  constructor
  · refine ⟨(run_points (1 + l₁.length + 1) (okVal (run_points 1 true l₁).2) l₂).1, ?_⟩
    rw [hfst, hpts, happ]
    simp only [run_points]
    rw [hline]
  · rw [hsnd, hpts, happ]
    simp only [run_points]
    rcases hll : l₁ ++ l₂ with _ | ⟨x, xs⟩
    · obtain ⟨h1, h2⟩ := List.append_eq_nil.mp hll
      subst h1
      subst h2
      rw [hsk]
      simp [run_points, _execute_test_plan, okVal]
    · have hmain2 := exec_nonempty ⟨plan.file_name, plan.description, x :: xs, false⟩ rfl (by simp)
      have happ2 : (run_points 1 true (l₁ ++ l₂)).2 =
          (run_points (1 + l₁.length) (okVal (run_points 1 true l₁).2) l₂).2 := by
        rw [run_points_append l₁ l₂ 1 true hnb]
      rw [hsk, hmain2]
      show (run_points (1 + l₁.length + 1) (okVal (run_points 1 true l₁).2) l₂).2 =
        (run_points 1 true (x :: xs)).2
      rw [← hll, happ2]
      exact run_points_snd_irrel l₂ _ _ _

/-- C1 counterexample: a plan whose sole test point raises
`ToDo("not implemented")` writes `not ok 1 # TODO not implemented` yet
returns aggregate success true — the claim's "success becomes false" is
refuted at this input. -/
theorem microtap_C1_cx :
    _execute_test_plan ⟨"test_a.py", none, [(TestOutcome.todo ["not implemented"], none)], false⟩ =
      (["1..1", "not ok 1 # TODO not implemented"], Except.ok true) := by
  decide

theorem microtap_C1_witness :
    (∃ rest,
      (_execute_test_plan
          ⟨"test_a.py", none, [(TestOutcome.todo ["not implemented"], none)], false⟩).1 =
        ("1.." ++ toString (⟨"test_a.py", none,
            [(TestOutcome.todo ["not implemented"], none)], false⟩ : Plan).test_points.length) ::
          ((run_points 1 true []).1 ++
            (("not ok " ++ toString (([] : List (TestOutcome × Option String)).length + 1) ++
                (if pyTruthy none then " - " ++ pyStr none else "") ++ " # TODO " ++
                  "not implemented") :: rest)))
    ∧ (_execute_test_plan
          ⟨"test_a.py", none, [(TestOutcome.todo ["not implemented"], none)], false⟩).2 =
        (_execute_test_plan ⟨"test_a.py", none, [] ++ [], false⟩).2 :=
  microtap_C1 ⟨"test_a.py", none, [(TestOutcome.todo ["not implemented"], none)], false⟩
    [] [] ["not implemented"] none "not implemented" rfl rfl (by simp) (by decide)

/-- C2: a test point raising `BailOut` is not converted into a result
line by the plan runner — `_execute_test_plan` ends with the lines of the
earlier points only and re-raises the exception's `args` unchanged; and
in multi mode with the root-plan flag set, once a plan bails out the
orchestrator writes the bail-out line as the very end of the output: no
lines for any subsequent plan and no roll-up lines. -/
theorem microtap_C2 (plan : Plan) (l₁ l₂ : List (TestOutcome × Option String))
    (bargs : List String) (d : Option String) (qs rs : List Plan) (p : Plan)
    (pargs : List String)
    (hsk : plan.skipped = false)
    (hpts : plan.test_points = l₁ ++ (TestOutcome.bailOut bargs, d) :: l₂)
    (hnb : ∀ x ∈ l₁, x.1.isBail = false)
    (hlen : 1 < (qs ++ p :: rs).length)
    (hq : ∀ q ∈ qs, ∃ b, (_execute_test_plan q).2 = Except.ok b)
    (hp : (_execute_test_plan p).2 = Except.error pargs) :
    _execute_test_plan plan =
      (("1.." ++ toString plan.test_points.length) :: (run_points 1 true l₁).1,
        Except.error bargs)
    ∧ execute_test_plans (PlansArg.seq (qs ++ p :: rs)) true =
        "TAP version 14" :: ("1.." ++ toString (qs ++ p :: rs).length) ::
          (qs.flatMap plan_block ++
            (("# Tests for " ++ p.file_name) ::
              (indent4 (_execute_test_plan p).1 ++ [_format_bailout_exception pargs]))) := by
  constructor
  · have hne : plan.test_points ≠ [] := by
      rw [hpts]
      cases l₁ <;> simp
    have hmain := exec_nonempty plan hsk hne
    have happ := run_points_append l₁ ((TestOutcome.bailOut bargs, d) :: l₂) 1 true hnb
    have h1 : run_points 1 true plan.test_points =
        ((run_points 1 true l₁).1, Except.error bargs) := by
      rw [hpts, happ]
      simp only [run_points]
      simp
    rw [hmain, h1]
  · rw [exec_seq_multi (qs ++ p :: rs) true (by omega)]
    rw [multi_mode_bail qs rs p pargs hq hp true]
    simp [plan_block, List.append_assoc]

theorem microtap_C2_witness :
    _execute_test_plan ⟨"test_b.py", none, [(TestOutcome.bailOut ["overheat"], none)], false⟩ =
      (("1.." ++ toString (⟨"test_b.py", none,
          [(TestOutcome.bailOut ["overheat"], none)], false⟩ : Plan).test_points.length) ::
        (run_points 1 true []).1, Except.error ["overheat"])
    ∧ execute_test_plans (PlansArg.seq
          (([⟨"test_ok.py", none, [(TestOutcome.normal, none)], false⟩] : List Plan) ++
            ((⟨"test_b2.py", none, [(TestOutcome.bailOut ["overheat"], none)], false⟩ : Plan) ::
              [⟨"test_z.py", none, [(TestOutcome.normal, none)], false⟩]))) true =
        "TAP version 14" ::
          ("1.." ++ toString
              ((([⟨"test_ok.py", none, [(TestOutcome.normal, none)], false⟩] : List Plan) ++
            ((⟨"test_b2.py", none, [(TestOutcome.bailOut ["overheat"], none)], false⟩ : Plan) ::
              [⟨"test_z.py", none, [(TestOutcome.normal, none)], false⟩])).length)) ::
            (([⟨"test_ok.py", none, [(TestOutcome.normal, none)], false⟩] : List Plan).flatMap
                plan_block ++
              (("# Tests for " ++ (⟨"test_b2.py", none,
                  [(TestOutcome.bailOut ["overheat"], none)], false⟩ : Plan).file_name) ::
                (indent4 (_execute_test_plan ⟨"test_b2.py", none,
                    [(TestOutcome.bailOut ["overheat"], none)], false⟩).1 ++
                  [_format_bailout_exception ["overheat"]]))) :=
  microtap_C2 ⟨"test_b.py", none, [(TestOutcome.bailOut ["overheat"], none)], false⟩
    [] [] ["overheat"] none
    [⟨"test_ok.py", none, [(TestOutcome.normal, none)], false⟩]
    [⟨"test_z.py", none, [(TestOutcome.normal, none)], false⟩]
    ⟨"test_b2.py", none, [(TestOutcome.bailOut ["overheat"], none)], false⟩
    ["overheat"] rfl rfl (by simp) (by decide) (by decide) (by decide)

/-- C3 (amended): for every non-skipped plan with N ≥ 1 test points none
of which raises `BailOut`, `_execute_test_plan` writes the plan line
`1..N` first, then one block per test point in registration order, the
block at position k carrying the 1-based index k+1; each such block is
exactly one result line (built from the outcome's success flag, directive
and reason) followed only by two-space-indented continuation lines. -/
theorem microtap_C3 (plan : Plan) (i : Nat) (td : TestOutcome × Option String)
    (hsk : plan.skipped = false)
    (hne : plan.test_points ≠ [])
    (hnb : ∀ x ∈ plan.test_points, x.1.isBail = false)
    (htd : td.1.isBail = false) :
    (_execute_test_plan plan).1 =
      ("1.." ++ toString plan.test_points.length) ::
        ((plan.test_points.enumFrom 1).map (fun q => point_block q.1 q.2)).flatten
    ∧ ∃ diag, point_block i td =
        _write_test_result td.2 i (resultFlag td.1) (directiveOf td.1) (reasonOf td.1) :: diag
        ∧ ∀ l ∈ diag, ∃ u, l = "  " ++ u := by
  constructor
  · have h := exec_nonempty plan hsk hne
    have hfst : (_execute_test_plan plan).1 =
        ("1.." ++ toString plan.test_points.length) ::
          (run_points 1 true plan.test_points).1 := by
      rw [h]
    rw [hfst, run_points_eq_blocks plan.test_points 1 true hnb]
  · obtain ⟨t, dd⟩ := td
    cases t with
    | bailOut args => exact absurd htd (by simp [TestOutcome.isBail])
    | normal => exact ⟨[], rfl, by simp⟩
    | skip args => exact ⟨[], rfl, by simp⟩
    | todo args => exact ⟨[], rfl, by simp⟩
    | fail args => exact ⟨[], rfl, by simp⟩
    | error args trace =>
      refine ⟨(splitlines (_format_exception args trace)).map (fun l => "  " ++ rstrip l),
        rfl, ?_⟩
      intro l hl
      obtain ⟨x, _, rfl⟩ := List.mem_map.mp hl
      exact ⟨rstrip x, rfl⟩

/-- C3 counterexample: a non-skipped plan with one test point that raises
`BailOut` writes the plan line `1..1` and then no result line at all for
the point — the claim's "exactly one result line per test point" is
refuted at this input. -/
theorem microtap_C3_cx :
    (⟨"test_bail.py", none, [(TestOutcome.bailOut ["overheat"], none)], false⟩ : Plan).skipped
        = false
    ∧ (⟨"test_bail.py", none,
          [(TestOutcome.bailOut ["overheat"], none)], false⟩ : Plan).test_points.length = 1
    ∧ _execute_test_plan
          ⟨"test_bail.py", none, [(TestOutcome.bailOut ["overheat"], none)], false⟩ =
        (["1..1"], Except.error ["overheat"]) := by
  decide

theorem microtap_C3_witness :
    (_execute_test_plan ⟨"test_c3.py", none,
        [(TestOutcome.normal, some "first"), (TestOutcome.skip ["device absent"], none)],
        false⟩).1 =
      ("1.." ++ toString (⟨"test_c3.py", none,
          [(TestOutcome.normal, some "first"), (TestOutcome.skip ["device absent"], none)],
          false⟩ : Plan).test_points.length) ::
        (((⟨"test_c3.py", none,
            [(TestOutcome.normal, some "first"), (TestOutcome.skip ["device absent"], none)],
            false⟩ : Plan).test_points.enumFrom 1).map (fun q => point_block q.1 q.2)).flatten
    ∧ ∃ diag, point_block 4 (TestOutcome.fail ["x"], none) =
        _write_test_result (TestOutcome.fail ["x"], (none : Option String)).2 4
            (resultFlag (TestOutcome.fail ["x"], (none : Option String)).1)
            (directiveOf (TestOutcome.fail ["x"], (none : Option String)).1)
            (reasonOf (TestOutcome.fail ["x"], (none : Option String)).1) :: diag
        ∧ ∀ l ∈ diag, ∃ u, l = "  " ++ u :=
  microtap_C3 ⟨"test_c3.py", none,
      [(TestOutcome.normal, some "first"), (TestOutcome.skip ["device absent"], none)], false⟩
    4 (TestOutcome.fail ["x"], none) rfl (by decide) (by decide) rfl

/-- C8: for every test point at index i that raises anything other than
the four signalling exceptions (and that the plan reaches, no earlier
point having raised `BailOut`), the plan runner writes `not ok i`
followed immediately by the diagnostics block — the `---`/`...` delimited
YAML-style block with the exception's (newline-free) message on the
`exception:` line and the captured trace under `traceback: |-`, each
block line right-stripped and indented two spaces under the result line —
and the plan's aggregate `success` can no longer be true. -/
theorem microtap_C8 (plan : Plan) (l₁ l₂ : List (TestOutcome × Option String))
    (args trace : List String) (d : Option String)
    (hsk : plan.skipped = false)
    (hpts : plan.test_points = l₁ ++ (TestOutcome.error args trace, d) :: l₂)
    (hnb : ∀ x ∈ l₁, x.1.isBail = false)
    (hm : ('\n' : Char) ∉ (joinSpace args).data)
    (ht : ∀ u ∈ trace, ('\n' : Char) ∉ u.data) :
    (∃ rest, (_execute_test_plan plan).1 =
        ("1.." ++ toString plan.test_points.length) ::
          ((run_points 1 true l₁).1 ++
            (("not ok " ++ toString (l₁.length + 1) ++
                (if pyTruthy d then " - " ++ pyStr d else "")) ::
              ((["---", "exception: " ++ joinSpace args, "traceback: |-"]
                  ++ trace.map (fun u => "  " ++ u) ++ ["..."]).map
                    (fun l => "  " ++ rstrip l)
                ++ rest))))
    ∧ (_execute_test_plan plan).2 ≠ Except.ok true := by
  have hne : plan.test_points ≠ [] := by
    rw [hpts]
    cases l₁ <;> simp
  have hmain := exec_nonempty plan hsk hne
  have hfst : (_execute_test_plan plan).1 =
      ("1.." ++ toString plan.test_points.length) :: (run_points 1 true plan.test_points).1 := by
    rw [hmain]
  have hsnd : (_execute_test_plan plan).2 = (run_points 1 true plan.test_points).2 := by
    rw [hmain]
  have happ := run_points_append l₁ ((TestOutcome.error args trace, d) :: l₂) 1 true hnb
  have hline : _write_test_result d (1 + l₁.length) false none none =
      "not ok " ++ toString (l₁.length + 1) ++
        (if pyTruthy d then " - " ++ pyStr d else "") := by
    have hdf : pyTruthy (none : Option String) = false := rfl
    simp only [_write_test_result, hdf, Bool.false_eq_true, if_false]
    rw [Nat.add_comm 1 l₁.length]
    apply strext
    cases hp : pyTruthy d <;> simp [hp, pyStr, String.data_append, List.append_assoc]
  constructor
  · refine ⟨(run_points (1 + l₁.length + 1) false l₂).1, ?_⟩
    rw [hfst, hpts, happ]
    simp only [run_points]
    rw [hline, splitlines_format_exception args trace hm ht]
    simp [List.cons_append, List.append_assoc]
  · rw [hsnd, hpts, happ]
    simp only [run_points]
    exact run_points_false_ne_ok_true l₂ _

theorem microtap_C8_witness :
    (∃ rest, (_execute_test_plan ⟨"test_e.py", none,
        [(TestOutcome.error ["boom"] ["line one", "line two"], none)], false⟩).1 =
        ("1.." ++ toString (⟨"test_e.py", none,
            [(TestOutcome.error ["boom"] ["line one", "line two"], none)],
            false⟩ : Plan).test_points.length) ::
          ((run_points 1 true []).1 ++
            (("not ok " ++ toString (([] : List (TestOutcome × Option String)).length + 1) ++
                (if pyTruthy none then " - " ++ pyStr none else "")) ::
              ((["---", "exception: " ++ joinSpace ["boom"], "traceback: |-"]
                  ++ (["line one", "line two"] : List String).map (fun u => "  " ++ u)
                  ++ ["..."]).map (fun l => "  " ++ rstrip l)
                ++ rest))))
    ∧ (_execute_test_plan ⟨"test_e.py", none,
        [(TestOutcome.error ["boom"] ["line one", "line two"], none)], false⟩).2 ≠
        Except.ok true :=
  microtap_C8 ⟨"test_e.py", none,
      [(TestOutcome.error ["boom"] ["line one", "line two"], none)], false⟩
    [] [] ["boom"] ["line one", "line two"] none rfl rfl (by simp) (by decide) (by decide)
